import Mathlib

/-
Verification of the plex-daily-drive playlist generation pipeline.

This file contains a shallow embedding, in Lean 4, of the decision logic of
the repository (src/generator.py, src/scheduler.py, src/plex_client.py,
src/database.py, src/podcasts.py), together with theorems settling the
behavioural claims about that logic.  Collaborator calls (the Plex media
server, the SQLite store, the RSS layer) are modelled as explicit
environment parameters, and their invocations are tracked where a claim is
about which calls happen.
-/

namespace DailyDrive

open scoped List

/-! ## Track Selector distribution (src/generator.py, lines 141-157)

The generator distributes a per-kind target count `c` (favorites or
discoveries) over the `n` configured music libraries.  The request count for
the library at iteration index `i` is, literally from the source,
`max(1, c // n) + (1 if i < c % n else 0)`; the whole loop is skipped when
`c = 0` (the code guards with `if favorites_count > 0` / `if discovery_count
> 0`), in which case no library is asked for anything. -/

/-- Per-library request count for library index `i` when distributing a
count `c` over `n` libraries: `fav_per_lib + (1 if i < fav_remainder else 0)`
with `fav_per_lib = max(1, c // n)` and `fav_remainder = c % n`
(src/generator.py lines 143-146 and 152-155). -/
def perLibCount (c n i : Nat) : Nat :=
  max 1 (c / n) + (if i < c % n then 1 else 0)

/-- The list of per-library request counts produced when distributing the
count `c` over `n` libraries.  When `c = 0` the distribution loop does not
run, so every library is asked for zero tracks. -/
def libAllocations (c n : Nat) : List Nat :=
  if c = 0 then List.replicate n 0
  else (List.range n).map (perLibCount c n)

/-! ## Mix Builder (src/generator.py, `_interleave`, lines 278-306)

`_interleave` first returns early when either argument is empty, then calls
`random.shuffle(music_tracks)` IN PLACE on its music argument, computes
`block_size = max(1, len(music_tracks) // (len(podcast_episodes) + 1))`, and
walks the episodes, emitting `music_tracks[music_idx:end]` (a block of at
most `block_size` not-yet-emitted music items) followed by the episode,
finally appending the remaining music.

The call to `random.shuffle` is modelled by an explicit `shuffle` function
parameter (an arbitrary permutation chosen by the random number generator);
statements that depend on `random.shuffle` being a permutation take the
hypothesis `shuffle music ~ music`. -/

/-- The episode walk of `_interleave` (src/generator.py lines 296-304):
for each episode emit the next at-most-`blockSize` music items followed by
the episode; after the last episode emit all remaining music.
`music.take blockSize` is exactly `music_tracks[music_idx:end]` with
`end = min(music_idx + block_size, len(music_tracks))`. -/
def interleaveGo (blockSize : Nat) : List α → List α → List α
  | music, [] => music
  | music, e :: es =>
      music.take blockSize ++ e :: interleaveGo blockSize (music.drop blockSize) es

/-- Full embedding of `_interleave`, also exposing the final state of the
caller-visible `music_tracks` list (which the Python code mutates in place
via `random.shuffle`): the first component is the returned playlist, the
second is the state of the `music_tracks` argument after the call. -/
def interleaveRun (shuffle : List α → List α) (music episodes : List α) :
    List α × List α :=
  if episodes.isEmpty then (music, music)
  else if music.isEmpty then (episodes, music)
  else
    let m := shuffle music
    (interleaveGo (max 1 (m.length / (episodes.length + 1))) m episodes, m)

/-- The value returned by `_interleave` (src/generator.py lines 278-306). -/
def interleave (shuffle : List α → List α) (music episodes : List α) : List α :=
  (interleaveRun shuffle music episodes).1

/-- The block layout claimed for the interleave output: for each episode
index `i` the next `blockSize` not-yet-emitted music items (fewer when the
music runs out) followed by that episode, then the remaining music as a
final trailing block. -/
def blockLayout [Inhabited α] (b : Nat) (s E : List α) : List α :=
  ((List.range E.length).map
    (fun i => (s.drop (i * b)).take b ++ [E.getD i default])).flatten
    ++ s.drop (E.length * b)

/-- Every episode of the layout is preceded by exactly `b` music items
since the previous episode (no block is cut short by the music running
out). -/
def fullBlocks (b : Nat) (s E : List α) : Prop :=
  ∀ i < E.length, ((s.drop (i * b)).take b).length = b

/-! ## Dates and Python string helpers (for `_cleanup_old_playlists`)

Python `datetime` values compare lexicographically by (year, month, day,
hour, minute, second); `strptime` with the formats `"%d.%m.%Y"` and
`"%Y-%m-%d"` accepts 1-2 digit day/month fields, a 4 digit year field, and
validates the day against the calendar month (leap years included),
producing a midnight datetime.  Python strings are sequences of code
points, modelled as `List Char`; `str.split`, `str.rstrip`,
`str.startswith`, `str.endswith` and membership are reimplemented below
with Python semantics. -/

/-- A Python `datetime` value (date plus time of day). -/
structure PyDateTime where
  year : Nat
  month : Nat
  day : Nat
  hour : Nat
  minute : Nat
  second : Nat
deriving DecidableEq

/-- Python `datetime` comparison `a < b`: lexicographic on the fields. -/
def dtLt (a b : PyDateTime) : Bool :=
  if a.year ≠ b.year then a.year < b.year
  else if a.month ≠ b.month then a.month < b.month
  else if a.day ≠ b.day then a.day < b.day
  else if a.hour ≠ b.hour then a.hour < b.hour
  else if a.minute ≠ b.minute then a.minute < b.minute
  else a.second < b.second

/-- Gregorian leap year rule used by `datetime`. -/
def isLeapYear (y : Nat) : Bool :=
  (y % 4 = 0 && y % 100 ≠ 0) || y % 400 = 0

/-- Number of days in a month, as validated by the `datetime` constructor. -/
def daysInMonth (y m : Nat) : Nat :=
  if m = 2 then (if isLeapYear y then 29 else 28)
  else if m = 4 || m = 6 || m = 9 || m = 11 then 30
  else 31

/-- Validity of a (year, month, day) triple for the `datetime` constructor. -/
def validDate (y m d : Nat) : Bool :=
  1 ≤ y && y ≤ 9999 && 1 ≤ m && m ≤ 12 && 1 ≤ d && d ≤ daysInMonth y m

/-- Parse a run of decimal digits (as matched by `strptime` field
directives); fails on an empty or non-digit string. -/
def digitsToNat (s : List Char) : Option Nat :=
  if s ≠ [] && s.all Char.isDigit then
    some (s.foldl (fun n c => n * 10 + (c.toNat - 48)) 0)
  else none

/-- Bounded-length digit field of `strptime`: between `lo` and `hi` digits. -/
def digitField (lo hi : Nat) (s : List Char) : Option Nat :=
  if lo ≤ s.length && s.length ≤ hi then digitsToNat s else none

/-- Python `s.split(sep)` for a non-empty separator, with explicit fuel
(`fuel` at least the length of `s` suffices since every step consumes at
least one character). -/
def pySplitGo (sep : List Char) : List Char → Nat → List (List Char)
  | s, 0 => [s]
  | [], _ + 1 => [[]]
  | c :: rest, fuel + 1 =>
    if sep.isPrefixOf (c :: rest) then
      [] :: pySplitGo sep ((c :: rest).drop sep.length) fuel
    else
      match pySplitGo sep rest fuel with
      | [] => [[c]]
      | h :: t => (c :: h) :: t

/-- Python `s.split(sep)` (non-empty separator). -/
def pySplitOn (sep s : List Char) : List (List Char) :=
  pySplitGo sep s s.length

/-- Python `s.rstrip(c)`: remove every trailing occurrence of `c`. -/
def pyRStrip (c : Char) (s : List Char) : List Char :=
  (s.reverse.dropWhile (· == c)).reverse

/-- Python `s.startswith(p)`. -/
def pyStartsWith (p s : List Char) : Bool :=
  p.isPrefixOf s

/-- Python `s.endswith(p)`. -/
def pyEndsWith (p s : List Char) : Bool :=
  p.isSuffixOf s

/-- Python `sub in s` for a non-empty substring `sub`. -/
def pyContains (sub s : List Char) : Bool :=
  2 ≤ (pySplitOn sub s).length

/-- Embedding of `datetime.strptime(s, "%d.%m.%Y")` (the new playlist name
format): day and month fields of 1-2 digits, a 4 digit year, calendar
validation, midnight time. -/
def strptimeDMY (s : List Char) : Option PyDateTime :=
  match pySplitOn ['.'] s with
  | [ds, ms, ys] =>
    match digitField 1 2 ds, digitField 1 2 ms, digitField 4 4 ys with
    | some d, some m, some y =>
        if validDate y m d then some ⟨y, m, d, 0, 0, 0⟩ else none
    | _, _, _ => none
  | _ => none

/-- Embedding of `datetime.strptime(s, "%Y-%m-%d")` (the legacy playlist
name format). -/
def strptimeYMD (s : List Char) : Option PyDateTime :=
  match pySplitOn ['-'] s with
  | [ys, ms, ds] =>
    match digitField 4 4 ys, digitField 1 2 ms, digitField 1 2 ds with
    | some y, some m, some d =>
        if validDate y m d then some ⟨y, m, d, 0, 0, 0⟩ else none
    | _, _, _ => none
  | _ => none

/-- The date-extraction step of `_cleanup_old_playlists`
(src/generator.py lines 321-330): if `"(" in title and title.endswith(")")`
parse `title.split("(")[-1].rstrip(")")` with `"%d.%m.%Y"`; elif
`" - " in title` parse `title.split(" - ")[-1]` with `"%Y-%m-%d"`; any
other title, and any `ValueError` from parsing, is skipped. -/
def parseTitleDate (title : String) : Option PyDateTime :=
  let t := title.data
  if pyContains ['('] t && pyEndsWith [')'] t then
    strptimeDMY (pyRStrip ')' ((pySplitOn ['('] t).getLastD []))
  else if pyContains [' ', '-', ' '] t then
    strptimeYMD ((pySplitOn [' ', '-', ' '] t).getLastD [])
  else none

/-- The deletion decision of `_cleanup_old_playlists`
(src/generator.py lines 309-337), applied to the titles of the playlists
enumerated from the server: a playlist is deleted exactly when its title
starts with the profile prefix, a date parses out of it, and that date is
strictly before the cutoff `now - timedelta(days=keep_days)`.  Unparsable
titles fall into the `continue` branches and are skipped; the embedding is
a total function, mirroring that no error escapes.  Returns the deleted
titles in enumeration order. -/
def cleanupOldPlaylists (titles : List String) (pfx : String)
    (cutoff : PyDateTime) : List String :=
  titles.filter fun title =>
    pyStartsWith pfx.data title.data &&
      match parseTitleDate title with
      | some d => dtLt d cutoff
      | none => false

/-- `datetime` rolled back by one calendar day (time of day kept). -/
def prevDay (d : PyDateTime) : PyDateTime :=
  if 1 < d.day then { d with day := d.day - 1 }
  else if 1 < d.month then
    { d with month := d.month - 1, day := daysInMonth d.year (d.month - 1) }
  else
    { d with year := d.year - 1, month := 12, day := 31 }

/-- `now - timedelta(days=k)` (src/generator.py line 311). -/
def subDays (d : PyDateTime) : Nat → PyDateTime
  | 0 => d
  | k + 1 => subDays (prevDay d) k

/-- `strftime("%02d")`-style zero padding to two digits. -/
def pad2 (n : Nat) : String :=
  if n < 10 then "0" ++ toString n else toString n

/-- `datetime.strftime("%d.%m.%Y")` (src/generator.py line 174). -/
def formatDMY (d : PyDateTime) : String :=
  pad2 d.day ++ "." ++ pad2 d.month ++ "." ++ toString d.year

/-! ## Scheduler (src/scheduler.py, `_update_jobs`, lines 40-86)

The scheduler owns APScheduler jobs.  A job is identified by its string id
and carries its cron trigger (hour, minute).  `_update_jobs` first removes
every job whose id starts with `JOB_PREFIX = "daily_drive_"` or equals
`PODCAST_JOB = "podcast_refresh"`, then, for each configured schedule entry
`i`, adds a generation job with id `daily_drive_{i}` and a podcast-refresh
job with id `podcast_refresh_{i}` fifteen minutes earlier (minute wrap with
day rollover), both with `replace_existing=True`.  `reschedule()` (lines
98-100) just calls `_update_jobs` again on the current state. -/

/-- An APScheduler job as relevant here: id plus cron trigger time. -/
structure Job where
  id : String
  hour : Nat
  minute : Nat
deriving DecidableEq

/-- `JOB_PREFIX` (src/scheduler.py line 14). -/
def jobStem : String := "daily_drive_"

/-- `PODCAST_JOB` (src/scheduler.py line 15). -/
def podcastJob : String := "podcast_refresh"

/-- A configured schedule entry `{hour, minute}`. -/
structure ScheduleEntry where
  hour : Nat
  minute : Nat
deriving DecidableEq

/-- `scheduler.add_job(..., replace_existing=True)`: replace the job with
the same id if present, otherwise append. -/
def addJobReplace (jobs : List Job) (j : Job) : List Job :=
  if jobs.any fun x => x.id == j.id then
    jobs.map fun x => if x.id == j.id then j else x
  else jobs ++ [j]

/-- The removal predicate of the cleanup loop (src/scheduler.py line 45):
`job.id.startswith(JOB_PREFIX) or job.id == PODCAST_JOB`. -/
def ownedForRemoval (j : Job) : Bool :=
  pyStartsWith jobStem.data j.id.data || j.id == podcastJob

/-- Trigger time of the podcast-refresh job for a schedule entry
(src/scheduler.py lines 73-77): fifteen minutes earlier, wrapping the
minute into the previous hour and hour 0 into hour 23. -/
def refreshTime (s : ScheduleEntry) : Nat × Nat :=
  if s.minute < 15 then ((s.hour + 23) % 24, s.minute + 60 - 15)
  else (s.hour, s.minute - 15)

/-- Embedding of `_update_jobs` (src/scheduler.py lines 40-86) as a
transformer on the scheduler job set: remove the jobs matched by
`ownedForRemoval`, then add one generation job and one refresh job per
configured entry, in configuration order, with replace semantics. -/
def updateJobs (jobs : List Job) (schedules : List ScheduleEntry) : List Job :=
  let cleaned := jobs.filter fun j => !(ownedForRemoval j)
  let afterGen := schedules.enum.foldl
    (fun acc p => addJobReplace acc ⟨jobStem ++ toString p.1, p.2.hour, p.2.minute⟩)
    cleaned
  schedules.enum.foldl
    (fun acc p =>
      let t := refreshTime p.2
      addJobReplace acc ⟨podcastJob ++ "_" ++ toString p.1, t.1, t.2⟩)
    afterGen

/-! ## Episode Selector (src/generator.py, `_get_todays_podcast_tracks`,
lines 217-275)

Collaborator results are supplied by a `PodcastEnv`; every collaborator
invocation the function performs is recorded in an event trace, so that
claims about *which calls happen* can be settled.  The type parameter `τ`
is the opaque Plex track handle. -/

/-- A podcast subscription row as consumed by the selector. -/
structure Podcast where
  name : String
  feedUrl : String
  enabled : Bool
deriving DecidableEq

/-- A collaborator invocation made by the Episode Selector. -/
inductive CollabCall where
  /-- `get_subscribed_podcast_names()` — a subscription-store query. -/
  | storeSubscribedNames : CollabCall
  /-- `db.get_podcasts()` — a subscription-store query. -/
  | storeGetPodcasts : CollabCall
  /-- `get_todays_episodes(feed_url)` — an RSS feed fetch. -/
  | feedFetch (url : String) : CollabCall
  /-- `plex_client.find_tracks_by_artist(name, 3)` — a library search. -/
  | librarySearch (artist : String) : CollabCall
deriving DecidableEq

/-- Collaborator environment of the Episode Selector. -/
structure PodcastEnv (τ : Type) where
  /-- Rows returned by `db.get_podcasts()`. -/
  storePodcasts : List Podcast
  /-- Modelled from the spec: `get_subscribed_podcast_names` is imported
  into the generator from the podcasts module but is absent from src/
  (only its callers are present).  Per the spec, the subscription store
  offers podcast CRUD plus `list_enabled()`; the function reads the store
  and returns the names of the subscribed podcasts.  Only its emptiness is
  consumed by the generator, so the returned names are environment data
  here; calling it is recorded as a store query. -/
  subscribedNames : List String
  /-- Titles of the entries that `get_todays_episodes(feed_url)` reports as
  published today (only emptiness and count are consumed). -/
  todaysEpisodes : String → List String
  /-- Tracks returned by `find_tracks_by_artist(name, max_results=3)`,
  most recently added first. -/
  tracksByArtist : String → List τ

/-- The accumulation loop of `_get_todays_podcast_tracks`
(src/generator.py lines 240-272): per enabled podcast, fetch the feed; if
no episode today, `continue` (skipping the break check); otherwise search
the library by artist name, keep the most recently added hit if any, and
`break` once `max_count` tracks are accumulated. -/
def podcastLoop (env : PodcastEnv τ) (maxCount : Nat) :
    List Podcast → List τ → List CollabCall → List τ × List CollabCall
  | [], acc, calls => (acc, calls)
  | p :: ps, acc, calls =>
    let calls := calls ++ [CollabCall.feedFetch p.feedUrl]
    if (env.todaysEpisodes p.feedUrl).isEmpty then
      podcastLoop env maxCount ps acc calls
    else
      let calls := calls ++ [CollabCall.librarySearch p.name]
      let acc := match env.tracksByArtist p.name with
        | [] => acc
        | t :: _ => acc ++ [t]
      if maxCount ≤ acc.length then (acc, calls)
      else podcastLoop env maxCount ps acc calls

/-- Embedding of `_get_todays_podcast_tracks` (src/generator.py lines
217-275).  `userPodcasts = some ups` is per-user mode (the list the caller
fetched for the user); `none` is global mode, in which the function itself
queries the subscription store.  Returns the selected episode tracks and
the trace of collaborator calls it made. -/
def getTodaysPodcastTracks (env : PodcastEnv τ) (maxCount : Nat)
    (userPodcasts : Option (List Podcast)) : List τ × List CollabCall :=
  match userPodcasts with
  | some ups =>
    let toCheck := ups.filter (·.enabled)
    if toCheck.isEmpty then ([], [])
    else podcastLoop env maxCount toCheck [] []
  | none =>
    if env.subscribedNames.isEmpty then ([], [CollabCall.storeSubscribedNames])
    else
      let toCheck := env.storePodcasts.filter (·.enabled)
      if toCheck.isEmpty then
        ([], [CollabCall.storeSubscribedNames, CollabCall.storeGetPodcasts])
      else
        podcastLoop env maxCount toCheck []
          [CollabCall.storeSubscribedNames, CollabCall.storeGetPodcasts]

/-! ## Generation Orchestrator (src/generator.py, `_do_generate` lines
123-214 and `generate_all_playlists` lines 26-44)

`_do_generate` is embedded as a function from a collaborator environment
and the profile parameters to the effects of the run: which playlists were
deleted by the cleanup step, which create-or-update call was issued, which
history rows were appended, and the returned value.  The create-or-update
collaborator `update_or_create_playlist` (src/plex_client.py lines
308-334) returns the playlist object on success and `None` when the step
itself raises; only that outcome is consumed by `_do_generate`, so it is
modelled by the boolean `publishOk`. -/

/-- The dictionary returned by `_do_generate` on success
(src/generator.py lines 206-212). -/
structure GenResult where
  name : String
  total : Nat
  music : Nat
  podcasts : Nat
  user : Option String
deriving DecidableEq

/-- A row appended by `db.add_history(name, track_count, podcast_count,
music_count)` (src/database.py lines 176-183), fields in call order. -/
structure HistoryRow where
  name : String
  trackCount : Nat
  podcastCount : Nat
  musicCount : Nat
deriving DecidableEq

/-- Collaborator environment of one `_do_generate` run. -/
structure GenEnv (τ : Type) where
  /-- `plex_client.get_favorite_tracks(lib_key, count)`. -/
  favTracks : Nat → Nat → List τ
  /-- `plex_client.get_discovery_tracks(lib_key, count)`. -/
  discTracks : Nat → Nat → List τ
  /-- The permutation applied by `random.shuffle` inside `_interleave`. -/
  shuffle : List τ → List τ
  /-- Environment of the nested `_get_todays_podcast_tracks` call. -/
  pod : PodcastEnv τ
  /-- `user_podcasts` argument (`none` in global mode). -/
  userPodcasts : Option (List Podcast)
  /-- Titles of `srv.playlists()` as enumerated by the cleanup step. -/
  serverPlaylists : List String
  /-- Whether `update_or_create_playlist` returns a playlist (`true`) or
  `None` (`false`, the step raised internally). -/
  publishOk : Bool
  /-- `datetime.now()` at the run. -/
  now : PyDateTime

/-- The externally visible effects and result of one `_do_generate` run. -/
structure RunEffects (τ : Type) where
  /-- Titles deleted by `_cleanup_old_playlists`. -/
  deleted : List String
  /-- `update_or_create_playlist` invocations `(name, items)`. -/
  published : List (String × List τ)
  /-- Rows appended to the history store. -/
  history : List HistoryRow
  /-- The value returned by `_do_generate`. -/
  result : Option GenResult
deriving DecidableEq

/-- Python `round(a / 100)` for a non-negative integer numerator `a`:
float division by 100 followed by banker's rounding (half to even).  Every
half-integer multiple of 1/100 is exactly representable as a float, so the
rational semantics is exact. -/
def pyRound100 (a : Nat) : Nat :=
  let q := a / 100
  let r := a % 100
  if r < 50 then q
  else if 50 < r then q + 1
  else if q % 2 = 0 then q else q + 1

/-- The music selection of `_do_generate` (src/generator.py lines 133-157):
clamp the discovery ratio to 0-100, split the target count by
`discovery_count = round(music_count * ratio / 100)`, and request
favorites then discoveries from each configured library with the
`perLibCount` distribution, concatenating the results in order. -/
def selectedMusic (env : GenEnv τ) (musicLibraries : List Nat)
    (musicCount : Nat) (discoveryRatio : Nat) : List τ :=
  let ratio := min 100 discoveryRatio
  let discoveryCount := pyRound100 (musicCount * ratio)
  let favoritesCount := musicCount - discoveryCount
  let numLibs := musicLibraries.length
  let favs := if 0 < favoritesCount then
      musicLibraries.enum.foldl
        (fun acc p => acc ++ env.favTracks p.2 (perLibCount favoritesCount numLibs p.1)) []
    else []
  let discs := if 0 < discoveryCount then
      musicLibraries.enum.foldl
        (fun acc p => acc ++ env.discTracks p.2 (perLibCount discoveryCount numLibs p.1)) []
    else []
  favs ++ discs

/-- Embedding of `_do_generate` (src/generator.py lines 123-214): guard on
empty library configuration; select music and the podcast episodes; if both
are empty return `None` before any further step; otherwise interleave,
derive the dated playlist name, run the cleanup, issue the
create-or-update, and append a history row exactly when it succeeded. -/
def doGenerate (env : GenEnv τ) (musicLibraries : List Nat)
    (musicCount podcastCount : Nat) (pfx : String) (discoveryRatio : Nat)
    (keepDays : Nat) (userName : Option String) : RunEffects τ :=
  if musicLibraries.isEmpty then ⟨[], [], [], none⟩
  else
    let musicTracks := selectedMusic env musicLibraries musicCount discoveryRatio
    let podcastEpisodes :=
      (getTodaysPodcastTracks env.pod podcastCount env.userPodcasts).1
    if musicTracks.isEmpty && podcastEpisodes.isEmpty then ⟨[], [], [], none⟩
    else
      let playlistItems := interleave env.shuffle musicTracks podcastEpisodes
      let playlistName := pfx ++ " (" ++ formatDMY env.now ++ ")"
      let deleted :=
        cleanupOldPlaylists env.serverPlaylists pfx (subDays env.now keepDays)
      if env.publishOk then
        ⟨deleted, [(playlistName, playlistItems)],
         [⟨playlistName, playlistItems.length, podcastEpisodes.length,
           musicTracks.length⟩],
         some ⟨playlistName, playlistItems.length, musicTracks.length,
           podcastEpisodes.length, userName⟩⟩
      else
        ⟨deleted, [(playlistName, playlistItems)], [], none⟩

/-- A user profile row as consumed by `generate_all_playlists`. -/
structure UserRow where
  id : Nat
  enabled : Bool
deriving DecidableEq

/-- The value returned by `generate_all_playlists`: either the result of
the single global fallback run, or the per-user fan-out outcome. -/
inductive FanOutResult where
  /-- No enabled user existed: result of the global `generate_playlist()`. -/
  | globalFallback (r : Option GenResult) : FanOutResult
  /-- Fan-out over enabled users: the collected successful results, or
  `none` when there were none. -/
  | perUser (rs : Option (List GenResult)) : FanOutResult
deriving DecidableEq

/-- Embedding of `generate_all_playlists` (src/generator.py lines 26-44).
`gen u` models `_generate_for_user(u)`: `.error` is a raised exception
(caught and logged by the loop), `.ok none` a `None` return, `.ok (some r)`
a successful result.  `globalResult` models the `generate_playlist()`
global fallback. -/
def generateAllPlaylists (users : List UserRow)
    (gen : Nat → Except String (Option GenResult))
    (globalResult : Option GenResult) : FanOutResult :=
  let enabledUsers := users.filter (·.enabled)
  if enabledUsers.isEmpty then .globalFallback globalResult
  else
    let results := enabledUsers.foldl
      (fun acc u =>
        match gen u.id with
        | .ok (some r) => acc ++ [r]
        | .ok none => acc
        | .error _ => acc)
      []
    .perUser (if results.isEmpty then none else some results)

/-! ## Helper lemmas -/

/-- Sum of a constant-plus-indicator allocation over the index range. -/
theorem sum_range_add_ite (a r n : Nat) :
    ((List.range n).map (fun i => a + if i < r then 1 else 0)).sum
      = n * a + min r n := by
  induction n with
  | zero => simp
  | succ n ih =>
      rw [List.range_succ, List.map_append, List.sum_append, ih]
      by_cases h : n < r
      · rw [Nat.succ_mul]
        simp [h]
        omega
      · rw [Nat.succ_mul]
        simp [h]
        omega

/-- Count of the indices that receive the extra unit. -/
theorem countP_range_add_ite (a r n : Nat) :
    ((List.range n).map (fun i => a + if i < r then 1 else 0)).countP
      (fun x => x == a + 1) = min r n := by
  induction n with
  | zero => simp
  | succ n ih =>
      rw [List.range_succ, List.map_append, List.countP_append, ih]
      by_cases h : n < r
      · simp [List.countP_cons, h]
        omega
      · simp [List.countP_cons, h]
        omega

/-- When the distributed count is zero or at least the number of
libraries, the `max 1` floor of the source is inert and the allocation list
is the plain even split. -/
theorem libAllocations_eq_map (c n : Nat) (hn : 1 ≤ n) (hc : c = 0 ∨ n ≤ c) :
    libAllocations c n
      = (List.range n).map (fun i => c / n + if i < c % n then 1 else 0) := by
  rcases hc with hc | hc
  · subst hc
    simp [libAllocations, List.eq_replicate_iff]
  · have hdiv : 1 ≤ c / n := (Nat.one_le_div_iff (by omega)).mpr hc
    unfold libAllocations perLibCount
    rw [if_neg (by omega)]
    congr 1
    funext i
    rw [Nat.max_eq_right hdiv]

/-- Closed form of the interleave walk: block `i` is the slice of music
between indices `i * b` and `i * b + b`, and the trailing block is the
music from index `e * b` on.  Holds unconditionally: slices shorten by
themselves once the music runs out, exactly like the
`min(music_idx + block_size, len(music_tracks))` bound in the source. -/
theorem interleaveGo_eq [Inhabited α] (b : Nat) (s E : List α) :
    interleaveGo b s E = blockLayout b s E := by
  induction E generalizing s with
  | nil => simp [interleaveGo, blockLayout]
  | cons e es ih =>
      have hfun : ∀ i ∈ List.range es.length,
          ((fun i => (s.drop (i * b)).take b ++ [(e :: es).getD i default])
              ∘ Nat.succ) i
            = (fun i => (((s.drop b).drop (i * b)).take b
                ++ [es.getD i default])) i := by
        intro i _
        simp only [Function.comp, List.getD_cons_succ, List.drop_drop,
          Nat.succ_mul]
        rw [Nat.add_comm b (i * b)]
      simp only [interleaveGo]
      rw [ih (s.drop b)]
      simp only [blockLayout, List.length_cons, List.range_succ_eq_map,
        List.map_cons, List.map_map, List.flatten_cons, List.drop_zero,
        Nat.zero_mul, List.getD_cons_zero, List.append_assoc,
        List.singleton_append, List.cons_append]
      rw [List.map_congr_left hfun, List.drop_drop]
      rw [Nat.add_comm b (es.length * b)]
      simp [Nat.add_mul]

/-- The interleave walk permutes its two inputs. -/
theorem interleaveGo_perm (b : Nat) (s E : List α) :
    List.Perm (interleaveGo b s E) (s ++ E) := by
  induction E generalizing s with
  | nil => simp [interleaveGo]
  | cons e es ih =>
      calc interleaveGo b s (e :: es)
          = s.take b ++ e :: interleaveGo b (s.drop b) es := by
            simp [interleaveGo]
        _ ~ s.take b ++ e :: (s.drop b ++ es) :=
            List.Perm.append_left _ (List.Perm.cons _ (ih _))
        _ ~ s.take b ++ (s.drop b ++ e :: es) :=
            List.Perm.append_left _ List.perm_middle.symm
        _ = (s.take b ++ s.drop b) ++ (e :: es) := by rw [List.append_assoc]
        _ = s ++ (e :: es) := by rw [List.take_append_drop]

/-- `_interleave` output is a permutation of music followed by episodes,
provided `random.shuffle` permutes. -/
theorem interleave_perm (shuffle : List α → List α) (M E : List α)
    (hperm : List.Perm (shuffle M) M) :
    List.Perm (interleave shuffle M E) (M ++ E) := by
  unfold interleave interleaveRun
  by_cases hE : E.isEmpty
  · simp [hE]
    simp [List.isEmpty_iff] at hE
    simp [hE]
  · by_cases hM : M.isEmpty
    · simp [hE, hM]
      simp [List.isEmpty_iff] at hM
      simp [hM]
    · simp only [hE, hM, Bool.false_eq_true, if_false]
      exact (interleaveGo_perm _ _ _).trans (List.Perm.append_right _ hperm)

/-- When there are at least as many music items as episodes, all episode
blocks fit: `e * block_size ≤ m`. -/
theorem blockSize_mul_le (m e : Nat) (hme : e ≤ m) :
    e * max 1 (m / (e + 1)) ≤ m := by
  rcases Nat.eq_zero_or_pos (m / (e + 1)) with h | h
  · rw [h]
    simpa using hme
  · rw [Nat.max_eq_right h]
    calc e * (m / (e + 1)) ≤ (e + 1) * (m / (e + 1)) :=
          Nat.mul_le_mul_right _ (by omega)
      _ = (m / (e + 1)) * (e + 1) := Nat.mul_comm _ _
      _ ≤ m := Nat.div_mul_le_self m (e + 1)

/-- The fan-out accumulation loop collects exactly the successful results,
in order, regardless of failures in between. -/
theorem foldl_collect (gen : Nat → Except String (Option GenResult))
    (l : List UserRow) (acc : List GenResult) :
    l.foldl (fun acc u =>
        match gen u.id with
        | .ok (some r) => acc ++ [r]
        | .ok none => acc
        | .error _ => acc) acc
      = acc ++ l.filterMap (fun u =>
          match gen u.id with
          | .ok (some r) => some r
          | _ => none) := by
  induction l generalizing acc with
  | nil => simp
  | cons u us ih =>
      simp only [List.foldl_cons, List.filterMap_cons]
      cases hg : gen u.id with
      | error e => simp [hg, ih]
      | ok o =>
          cases o with
          | none => simp [hg, ih]
          | some r => simp [hg, ih]

/-! ## Claim C1 — Track Selector distribution -/

/-- C1 (counterexample): the per-library request counts do NOT sum to the
target count for every `c ≥ 0` and non-empty library list.  With target
count `c = 1` over `n = 2` libraries, the code computes
`max(1, 1 // 2) = 1` per library plus one extra for the first
`1 % 2 = 1` libraries, i.e. requests `[2, 1]` — summing to 3, not 1. -/
theorem trackSelector_distribution_cex : (libAllocations 1 2).sum ≠ 1 := by
  decide

/-- C1 (amended): the claimed distribution law holds whenever the target
count `c` is zero or at least the number `n` of libraries — then the
per-library request counts sum to `c`, the `i`-th count is
`c / n` plus one extra exactly when `i < c % n` (so each count is `c / n`
or `c / n + 1` and the first `c % n` libraries in iteration order receive
the extra), and exactly `c % n` counts equal `c / n + 1`.  For
`0 < c < n` the `max(1, c // n)` floor in the source makes every library
request at least one track and the counts sum to `n + c` instead. -/
theorem trackSelector_distribution (c n : Nat) (hn : 1 ≤ n)
    (hc : c = 0 ∨ n ≤ c) :
    (libAllocations c n).length = n ∧
    (libAllocations c n).sum = c ∧
    (∀ i, i < n → (libAllocations c n).getD i 0
        = c / n + (if i < c % n then 1 else 0)) ∧
    (libAllocations c n).countP (fun a => a == c / n + 1) = c % n := by
  have hC := libAllocations_eq_map c n hn hc
  have hmod : c % n < n := Nat.mod_lt _ (by omega)
  refine ⟨by simp [hC], ?_, ?_, ?_⟩
  · rw [hC, sum_range_add_ite]
    rw [Nat.min_eq_left (by omega)]
    have := Nat.div_add_mod c n
    omega
  · intro i hi
    rw [hC, List.getD_eq_getElem _ _ (by simpa using hi)]
    simp
  · rw [hC, countP_range_add_ite]
    omega

/-- C1 (witness): distributing 5 tracks over 2 libraries requests
`[3, 2]`. -/
theorem trackSelector_distribution_witness :
    (libAllocations 5 2).sum = 5 ∧ (libAllocations 5 2).getD 0 0 = 3 :=
  ⟨(trackSelector_distribution 5 2 (by decide) (Or.inr (by decide))).2.1,
   by decide⟩

/-! ## Claim C2 — interleave block structure -/

/-- C2 (counterexample): with music `[0]` and episodes `[10, 20]` the
output is `[0, 10, 20]`: the second episode is preceded by zero music
items instead of `block_size = max(1, 1 // 3) = 1`, and the claimed
trailing quantity `m - e * block_size = 1 - 2` is negative, so the claimed
layout (`fullBlocks` plus a non-negative trailing block) fails. -/
theorem interleave_blocks_cex :
    interleave id [0] [10, 20] = [0, 10, 20] ∧
    ¬ (fullBlocks (max 1 (1 / (2 + 1))) (id [0]) ([10, 20] : List Nat) ∧
        2 * max 1 (1 / (2 + 1)) ≤ 1) := by
  constructor
  · decide
  · intro h
    exact absurd h.2 (by decide)

/-- C2 (amended): for non-empty music `M` and episodes `E` with
`|E| ≤ |M|` (and `random.shuffle` permuting), the interleave output is the
block layout with `block_size = max(1, m // (e + 1))`: every episode is
preceded by exactly `block_size` music items since the previous episode
(or the start), `e * block_size ≤ m`, and the final trailing block holds
the remaining `m - e * block_size ≥ 0` music items.  For `|E| > |M|` the
late blocks run dry (see the counterexample). -/
theorem interleave_blocks [Inhabited α] (shuffle : List α → List α)
    (M E : List α) (hM : M ≠ []) (hE : E ≠ [])
    (hperm : List.Perm (shuffle M) M) (hme : E.length ≤ M.length)
    (b : Nat) (hb : b = max 1 (M.length / (E.length + 1))) :
    interleave shuffle M E = blockLayout b (shuffle M) E ∧
    fullBlocks b (shuffle M) E ∧
    E.length * b ≤ M.length ∧
    ((shuffle M).drop (E.length * b)).length = M.length - E.length * b := by
  have hs : (shuffle M).length = M.length := hperm.length_eq
  have hebm : E.length * b ≤ M.length := by
    rw [hb]
    exact blockSize_mul_le _ _ hme
  refine ⟨?_, ?_, hebm, by simp [List.length_drop, hs]⟩
  · have hun : interleave shuffle M E
        = interleaveGo (max 1 ((shuffle M).length / (E.length + 1)))
            (shuffle M) E := by
      unfold interleave interleaveRun
      rw [if_neg (by simpa [List.isEmpty_iff] using hE),
          if_neg (by simpa [List.isEmpty_iff] using hM)]
    rw [hun, interleaveGo_eq, hs, ← hb]
  · intro i hi
    have h1 : (i + 1) * b ≤ E.length * b := Nat.mul_le_mul_right _ (by omega)
    rw [Nat.add_mul, Nat.one_mul] at h1
    simp only [List.length_take, List.length_drop, hs]
    omega

/-- C2 (witness): three music items and one episode give blocks of one
music item before the episode and a trailing block of two. -/
theorem interleave_blocks_witness :
    interleave id [0, 1, 2] [9] = blockLayout 1 (id [0, 1, 2]) [9] ∧
    blockLayout 1 (id [0, 1, 2]) ([9] : List Nat) = [0, 9, 1, 2] :=
  ⟨(interleave_blocks id [0, 1, 2] [9] (by decide) (by decide)
      (List.Perm.refl _) (by decide) 1 (by decide)).1, by decide⟩

/-! ## Claim C3 — interleave conservation -/

/-- C3: `interleave([], E) = E` and `interleave(M, []) = M` with input
order preserved; and for non-empty `M`, `E` (with `random.shuffle`
permuting) the output has length `m + e` and contains every element of `M`
and of `E` exactly once — multiplicities add, so nothing is dropped or
duplicated. -/
theorem interleave_conservation [DecidableEq α] (shuffle : List α → List α)
    (hperm : ∀ l, List.Perm (shuffle l) l) :
    (∀ E : List α, interleave shuffle [] E = E) ∧
    (∀ M : List α, interleave shuffle M [] = M) ∧
    (∀ M E : List α, M ≠ [] → E ≠ [] →
      (interleave shuffle M E).length = M.length + E.length ∧
      ∀ x, (interleave shuffle M E).count x = M.count x + E.count x) := by
  refine ⟨?_, ?_, ?_⟩
  · intro E
    cases E with
    | nil => simp [interleave, interleaveRun]
    | cons e es => simp [interleave, interleaveRun]
  · intro M
    simp [interleave, interleaveRun]
  · intro M E hM hE
    have hp := interleave_perm shuffle M E (hperm M)
    constructor
    · rw [hp.length_eq, List.length_append]
    · intro x
      rw [hp.count_eq, List.count_append]

/-- C3 (witness): concrete conservation instances. -/
theorem interleave_conservation_witness :
    interleave id ([] : List Nat) [7, 8] = [7, 8] ∧
    (interleave id [1, 2] [7]).length = [1, 2].length + [7].length :=
  ⟨(interleave_conservation id (fun l => List.Perm.refl l)).1 [7, 8],
   ((interleave_conservation id (fun l => List.Perm.refl l)).2.2
      [1, 2] [7] (by decide) (by decide)).1⟩

/-! ## Claim C4 — interleave purity -/

/-- C4 (counterexample): `_interleave` is NOT a pure function of its two
arguments.  `List.reverse` is an admissible outcome of `random.shuffle`
on `[0, 1]` (it is a permutation of it), yet a run in which the shuffle
reverses differs from a run in which it leaves the list in place — and the
music argument itself is left mutated (shuffled in place by line 289), no
longer equal to its input value `[0, 1]`. -/
theorem interleave_purity_cex :
    List.Perm (List.reverse [0, 1]) ([0, 1] : List Nat) ∧
    interleave List.reverse [0, 1] [5] ≠ interleave id [0, 1] [5] ∧
    (interleaveRun List.reverse [0, 1] [5]).2 ≠ [0, 1] := by
  refine ⟨by decide, by decide, by decide⟩

/-- C4 (amended): `_interleave` is deterministic relative to the shuffle
outcome — its output depends only on the shuffled music sequence and the
episode sequence (episode order preserved as produced, never shuffled) —
and its mutation of the music argument is exactly the in-place shuffle:
the argument is untouched when either list is empty and holds the shuffled
order otherwise. -/
theorem interleave_purity (shuffle1 shuffle2 : List α → List α)
    (M E : List α) (h : shuffle1 M = shuffle2 M) :
    interleave shuffle1 M E = interleave shuffle2 M E ∧
    (E = [] → (interleaveRun shuffle1 M E).2 = M) ∧
    (M = [] → (interleaveRun shuffle1 M E).2 = M) ∧
    (M ≠ [] → E ≠ [] → (interleaveRun shuffle1 M E).2 = shuffle1 M) := by
  refine ⟨?_, ?_, ?_, ?_⟩
  · unfold interleave interleaveRun
    by_cases hE : E.isEmpty
    · simp [hE]
    · by_cases hM : M.isEmpty
      · simp [hE, hM]
      · simp [hE, hM, h]
  · intro hE
    subst hE
    simp [interleaveRun]
  · intro hM
    subst hM
    by_cases hE : E.isEmpty
    · simp [interleaveRun, hE]
    · simp [interleaveRun, hE]
  · intro hM hE
    unfold interleaveRun
    rw [if_neg (by simpa [List.isEmpty_iff] using hE),
        if_neg (by simpa [List.isEmpty_iff] using hM)]

/-- C4 (witness): two shuffle functions with the same outcome on the music
argument produce the same run, and the final state of the music argument
is its shuffled order. -/
theorem interleave_purity_witness :
    interleave List.reverse [0, 1] [5]
      = interleave (fun _ => [1, 0]) [0, 1] [5] ∧
    (interleaveRun List.reverse [0, 1] [5]).2 = List.reverse [0, 1] :=
  ⟨(interleave_purity List.reverse (fun _ => [1, 0]) [0, 1] [5] (by decide)).1,
   (interleave_purity List.reverse (fun _ => [1, 0]) [0, 1] [5]
      (by decide)).2.2.2 (by decide) (by decide)⟩

/-! ## Claim C5 — scheduler trigger replacement -/

/-- C5 (code bug): `_update_jobs` does NOT replace the entire owned
trigger set.  Its removal predicate matches ids starting with
`daily_drive_` or exactly equal to `podcast_refresh`, but the refresh
triggers it creates are named `podcast_refresh_{i}` — matched by neither.
Starting from an empty scheduler, configuring two entries (06:00, 07:00)
and then rescheduling with one entry (06:00) leaves the stale owned
trigger `podcast_refresh_1` (06:45) in place: two refresh-named triggers
remain for a single configured entry, while the generation triggers are
correctly reduced to one. -/
theorem scheduler_stale_refresh_trigger :
    Job.mk "podcast_refresh_1" 6 45
        ∈ updateJobs (updateJobs [] [⟨6, 0⟩, ⟨7, 0⟩]) [⟨6, 0⟩] ∧
    ((updateJobs (updateJobs [] [⟨6, 0⟩, ⟨7, 0⟩]) [⟨6, 0⟩]).filter
        (fun j => pyStartsWith podcastJob.data j.id.data)).length = 2 ∧
    ((updateJobs (updateJobs [] [⟨6, 0⟩, ⟨7, 0⟩]) [⟨6, 0⟩]).filter
        (fun j => pyStartsWith jobStem.data j.id.data)).length = 1 := by
  refine ⟨by decide, by decide, by decide⟩

/-! ## Claim C6 — stale playlist retention -/

/-- C6: during the retirement step, a playlist whose title starts with the
profile prefix and parses to a date (in the new `<prefix> (DD.MM.YYYY)` or
legacy `<prefix> - YYYY-MM-DD` format, as embedded in `parseTitleDate`)
strictly before the cutoff `now - keep_days` is deleted; one whose parsed
date is within the retention window is not deleted; and a title from which
no date parses is skipped — the total embedding mirrors that no error is
raised. -/
theorem cleanup_retention (titles : List String) (pfx : String)
    (cutoff : PyDateTime) (title : String) (hmem : title ∈ titles)
    (hpfx : pyStartsWith pfx.data title.data = true) :
    (∀ d, parseTitleDate title = some d →
      (dtLt d cutoff = true →
        title ∈ cleanupOldPlaylists titles pfx cutoff) ∧
      (dtLt d cutoff = false →
        title ∉ cleanupOldPlaylists titles pfx cutoff)) ∧
    (parseTitleDate title = none →
      title ∉ cleanupOldPlaylists titles pfx cutoff) := by
  constructor
  · intro d hd
    constructor
    · intro hlt
      rw [cleanupOldPlaylists, List.mem_filter]
      refine ⟨hmem, ?_⟩
      simp [hpfx, hd, hlt]
    · intro hlt hin
      rw [cleanupOldPlaylists, List.mem_filter] at hin
      have := hin.2
      simp [hpfx, hd, hlt] at this
  · intro hn hin
    rw [cleanupOldPlaylists, List.mem_filter] at hin
    have := hin.2
    simp [hpfx, hn] at this

/-- C6 (witness): with cutoff 05.10.2025 12:00, the playlist dated
01.01.2020 is deleted, the one dated 10.10.2025 is kept, and the dateless
title is skipped. -/
theorem cleanup_retention_witness :
    "Daily Drive (01.01.2020)" ∈
      cleanupOldPlaylists
        ["Daily Drive (01.01.2020)", "Daily Drive (10.10.2025)",
         "Daily Drive extras"]
        "Daily Drive" ⟨2025, 10, 5, 12, 0, 0⟩ ∧
    "Daily Drive (10.10.2025)" ∉
      cleanupOldPlaylists
        ["Daily Drive (01.01.2020)", "Daily Drive (10.10.2025)",
         "Daily Drive extras"]
        "Daily Drive" ⟨2025, 10, 5, 12, 0, 0⟩ ∧
    "Daily Drive extras" ∉
      cleanupOldPlaylists
        ["Daily Drive (01.01.2020)", "Daily Drive (10.10.2025)",
         "Daily Drive extras"]
        "Daily Drive" ⟨2025, 10, 5, 12, 0, 0⟩ :=
  ⟨((cleanup_retention _ "Daily Drive" ⟨2025, 10, 5, 12, 0, 0⟩
        "Daily Drive (01.01.2020)" (by decide) (by decide)).1
      ⟨2020, 1, 1, 0, 0, 0⟩ (by decide)).1 (by decide),
   ((cleanup_retention _ "Daily Drive" ⟨2025, 10, 5, 12, 0, 0⟩
        "Daily Drive (10.10.2025)" (by decide) (by decide)).1
      ⟨2025, 10, 10, 0, 0, 0⟩ (by decide)).2 (by decide),
   (cleanup_retention _ "Daily Drive" ⟨2025, 10, 5, 12, 0, 0⟩
        "Daily Drive extras" (by decide) (by decide)).2 (by decide)⟩

/-! ## Claim C7 — fan-out isolation -/

/-- C7: when at least one configured profile is enabled,
`generate_all_playlists` runs one generation cycle per enabled profile in
order, a raised exception (or `None` result) in one cycle does not abort
the remaining ones — the outcome is exactly the ordered collection of the
successful results — and the call returns that list, or `None` when no
profile succeeded; with no enabled profile (in particular with zero
profiles configured) it performs the single global run instead. -/
theorem fanout_isolation (users : List UserRow)
    (gen : Nat → Except String (Option GenResult))
    (globalResult : Option GenResult) :
    (users.filter (·.enabled) = [] →
      generateAllPlaylists users gen globalResult
        = .globalFallback globalResult) ∧
    (users.filter (·.enabled) ≠ [] →
      generateAllPlaylists users gen globalResult
        = .perUser (
            if ((users.filter (·.enabled)).filterMap (fun u =>
                match gen u.id with
                | .ok (some r) => some r
                | _ => none)).isEmpty
            then none
            else some ((users.filter (·.enabled)).filterMap (fun u =>
                match gen u.id with
                | .ok (some r) => some r
                | _ => none)))) := by
  constructor
  · intro h
    unfold generateAllPlaylists
    rw [h]
    rfl
  · intro h
    unfold generateAllPlaylists
    rw [if_neg (by simpa [List.isEmpty_iff] using h)]
    rw [foldl_collect]
    simp

/-- C7 (witness): of three users, one disabled and one raising, only the
remaining successful result is returned — the failure does not abort the
later cycle. -/
theorem fanout_isolation_witness :
    generateAllPlaylists [⟨1, true⟩, ⟨2, true⟩, ⟨3, false⟩]
        (fun i => if i = 1 then Except.error "boom"
          else Except.ok (some ⟨"Daily Drive (12.10.2025)", 3, 2, 1, some "kim"⟩))
        none
      = FanOutResult.perUser
          (some [⟨"Daily Drive (12.10.2025)", 3, 2, 1, some "kim"⟩]) := by
  rw [(fanout_isolation [⟨1, true⟩, ⟨2, true⟩, ⟨3, false⟩]
      (fun i => if i = 1 then Except.error "boom"
        else Except.ok (some ⟨"Daily Drive (12.10.2025)", 3, 2, 1, some "kim"⟩))
      none).2 (by decide)]
  decide

/-! ## Claim C8 — publish failure and history -/

/-- C8: in any `_do_generate` run, if the create-or-update step fails
(the publisher returns `None`) the run returns `None` and appends nothing
to history; a history row — carrying the playlist name and the total,
podcast and music item counts of the returned result — is appended exactly
when the publish step was reached and succeeded. -/
theorem publish_failure_no_history (env : GenEnv τ) (libs : List Nat)
    (mc pc : Nat) (pfx : String) (ratio keepDays : Nat)
    (userName : Option String) (eff : RunEffects τ)
    (heff : eff = doGenerate env libs mc pc pfx ratio keepDays userName) :
    (env.publishOk = false → eff.result = none ∧ eff.history = []) ∧
    (eff.history ≠ [] ↔ env.publishOk = true ∧ eff.published ≠ []) ∧
    (∀ r, eff.result = some r →
        eff.history = [⟨r.name, r.total, r.podcasts, r.music⟩]) ∧
    (env.publishOk = true → eff.published ≠ [] → ∃ r, eff.result = some r) := by
  subst heff
  unfold doGenerate
  by_cases h1 : libs.isEmpty = true
  · simp [h1]
  · by_cases h2 : ((selectedMusic env libs mc ratio).isEmpty &&
        (getTodaysPodcastTracks env.pod pc env.userPodcasts).1.isEmpty) = true
    · simp [h1, h2]
    · by_cases hp : env.publishOk = true
      · simp [h1, h2, hp]
      · simp [h1, h2, hp]

/-- C8 (witness): a run whose publish step fails returns `None` and writes
no history row. -/
theorem publish_failure_no_history_witness :
    (doGenerate
        (GenEnv.mk (fun _ c => List.replicate c 0)
          (fun _ c => List.replicate c 1) id
          (PodcastEnv.mk [] [] (fun _ => []) (fun _ => [])) none [] false
          ⟨2025, 10, 12, 8, 0, 0⟩)
        [1] 4 3 "Daily Drive" 50 7 none).result = none ∧
    (doGenerate
        (GenEnv.mk (fun _ c => List.replicate c 0)
          (fun _ c => List.replicate c 1) id
          (PodcastEnv.mk [] [] (fun _ => []) (fun _ => [])) none [] false
          ⟨2025, 10, 12, 8, 0, 0⟩)
        [1] 4 3 "Daily Drive" 50 7 none).history = [] :=
  (publish_failure_no_history
      (GenEnv.mk (fun _ c => List.replicate c 0)
        (fun _ c => List.replicate c 1) id
        (PodcastEnv.mk [] [] (fun _ => []) (fun _ => [])) none [] false
        ⟨2025, 10, 12, 8, 0, 0⟩)
      [1] 4 3 "Daily Drive" 50 7 none _ rfl).1 rfl

/-! ## Claim C9 — episode selector with no enabled subscription -/

/-- C9 (counterexample): in global mode the Episode Selector does NOT
return empty without any collaborator call when no subscription is
enabled: its very first statement invokes `get_subscribed_podcast_names()`,
a subscription-store query, so the call trace is non-empty even with an
entirely empty store. -/
theorem episode_selector_store_query_cex :
    (getTodaysPodcastTracks
        (PodcastEnv.mk [] [] (fun _ => []) (fun _ => ([] : List Nat)))
        3 none).2 ≠ [] := by
  decide

/-- C9 (amended): when no subscription is enabled the Episode Selector
returns the empty list without any feed fetch and without any library
search; in per-user mode (subscriptions supplied by the caller) it makes
no collaborator call at all, while in global mode it first reads the
subscription store (one or two store queries) and nothing else. -/
theorem episode_selector_no_enabled (env : PodcastEnv τ) (maxCount : Nat) :
    (∀ ups : List Podcast, ups.filter (·.enabled) = [] →
        getTodaysPodcastTracks env maxCount (some ups) = ([], [])) ∧
    (env.storePodcasts.filter (·.enabled) = [] →
        (getTodaysPodcastTracks env maxCount none).1 = [] ∧
        ∀ c ∈ (getTodaysPodcastTracks env maxCount none).2,
          c = CollabCall.storeSubscribedNames
            ∨ c = CollabCall.storeGetPodcasts) := by
  constructor
  · intro ups h
    simp [getTodaysPodcastTracks, h]
  · intro h
    by_cases hs : env.subscribedNames.isEmpty
    · simp [getTodaysPodcastTracks, hs]
    · simp [getTodaysPodcastTracks, hs, h]

/-- C9 (witness): a disabled-only subscription list yields the empty
result with an empty call trace in per-user mode, and an empty track list
in global mode. -/
theorem episode_selector_no_enabled_witness :
    getTodaysPodcastTracks
        (PodcastEnv.mk [] ["Some Show"] (fun _ => []) (fun _ => ([] : List Nat)))
        3 (some [⟨"Show", "http feed", false⟩]) = ([], []) ∧
    (getTodaysPodcastTracks
        (PodcastEnv.mk [⟨"Show", "http feed", false⟩] ["Show"] (fun _ => [])
          (fun _ => ([] : List Nat))) 3 none).1 = [] :=
  ⟨(episode_selector_no_enabled _ 3).1 _ (by decide),
   ((episode_selector_no_enabled _ 3).2 (by decide)).1⟩

/-! ## Claim C10 — empty selection aborts before effects -/

/-- C10: in any `_do_generate` run in which both the selected music track
list and the selected podcast episode list are empty, the run returns
`None` with no effect at all: no playlist is deleted by the cleanup, no
create-or-update call is issued, and no history row is written. -/
theorem empty_selection_no_effects (env : GenEnv τ) (libs : List Nat)
    (mc pc : Nat) (pfx : String) (ratio keepDays : Nat)
    (userName : Option String)
    (hmusic : selectedMusic env libs mc ratio = [])
    (hpods : (getTodaysPodcastTracks env.pod pc env.userPodcasts).1 = []) :
    doGenerate env libs mc pc pfx ratio keepDays userName
      = ⟨[], [], [], none⟩ := by
  simp [doGenerate, hmusic, hpods]

/-- C10 (witness): collaborators returning nothing lead to a fully
effect-free `None` run even though a stale server playlist was there to
delete and the publisher would have succeeded. -/
theorem empty_selection_no_effects_witness :
    doGenerate
        (GenEnv.mk (fun _ _ => ([] : List Nat)) (fun _ _ => []) id
          (PodcastEnv.mk [] [] (fun _ => []) (fun _ => [])) none
          ["Daily Drive (01.01.2020)"] true ⟨2025, 10, 12, 8, 0, 0⟩)
        [1, 2] 10 3 "Daily Drive" 40 7 none
      = ⟨[], [], [], none⟩ :=
  empty_selection_no_effects _ _ _ _ _ _ _ _ rfl rfl

end DailyDrive

